import Mathlib

/-!
Verification development for the wander overlay forwarding core
(src/wander/comms_external.c).

The C code is shallowly embedded: structs become Lean structures, byte
buffers become lists of naturals, and calls into external collaborators
(the routing table, the node transport `send_func`, the socket layer) are
modelled by oracle parameters giving the outcome of each call.  The two
functions defined in the source file, `handle_send_external` and
`handle_external`, are translated as pure functions returning a record of
their observable effects (bytes pushed to the external socket, the
internal packet handed to `send_func`, which resources were released, and
the ordered list of forwarding-engine calls made).
-/

namespace Wander

/-- Byte values as read from or written to sockets. -/
abbrev Byte := Nat

/-- Node identifiers (u16 in the C source). -/
abbrev NodeId := Nat

/-- Mirror of `struct packet_route_t`: an ordered path of node ids, its
length field `len`, and the cursor `step`. -/
structure packet_route_t where
  len : Nat
  step : Nat
  path : List NodeId
  deriving Repr, DecidableEq

/-- Mirror of `struct wander_packet` (the wire-level external packet):
destination address and port, payload bytes and the payload length
field.  The checksum field is omitted: validation is commented out in
the source and no claim touches it. -/
structure wander_packet where
  dest_ipv4 : String
  dest_port : Nat
  payload : List Byte
  payload_len : Nat
  deriving Repr, DecidableEq

/-- Mirror of `struct wander_internal_packet`: wraps a `wander_packet`
(`none` models a NULL payload pointer), carries the owned
`packet_route_t`, bookkeeping node ids, the `is_response` flag and the
flattened length field. -/
structure wander_internal_packet where
  payload : Option wander_packet
  payload_len : Nat
  pr : packet_route_t
  prev_node_id : NodeId
  dest_node_id : NodeId
  is_response : Bool
  deriving Repr, DecidableEq

/-- UINT16_MAX as used by the source. -/
def UINT16_MAX : Nat := 65535

/-- Number of bytes requested by each `recv` call in the external
response loop (`recv(ext_sockfd, response, UINT16_MAX - 1, 0)` at line 75
of comms_external.c). -/
def recv_request_len : Nat := UINT16_MAX - 1

/-- Model of one `recv` call of the response loop: of the bytes the peer
has available, at most `recv_request_len` are delivered into the buffer. -/
def recv_chunk (stream : List Byte) : List Byte :=
  stream.take recv_request_len

/-- Modelled from the spec: `reverse_route` is declared in
wander/routing.h and its definition is not under src/.  Per spec §4.1 it
returns a fresh sequence that is the exact reverse of the first `len`
elements of `path` (at its only call site `len` is the path length). -/
def reverse_route (path : List NodeId) (len : Nat) : List NodeId :=
  (path.take len).reverse

/-- Modelled from the spec: `wander_create_response` is declared in
wander/packet.h and its definition is not under src/.  Per spec §4.1
(`build_response`) it constructs the first response packet, copying the
addressing header fields of the request and seeding the payload with the
first chunk. -/
def wander_create_response (req : wander_packet) (chunk : List Byte)
    (_seq_nr : Nat) : wander_packet :=
  { dest_ipv4 := req.dest_ipv4
    dest_port := req.dest_port
    payload := chunk
    payload_len := chunk.length }

/-- Modelled from the spec: `wander_append_response` is declared in
wander/packet.h and its definition is not under src/.  Per spec §4.1
(`append_response`) it appends a subsequent streamed chunk to an
in-progress response packet. -/
def wander_append_response (resp : wander_packet) (chunk : List Byte)
    (_seq_nr : Nat) : wander_packet :=
  { resp with
    payload := resp.payload ++ chunk
    payload_len := resp.payload_len + chunk.length }

/-- Modelled from the spec: `wander_internal_from_external` is declared
in wander/packet.h and its definition is not under src/.  Per spec §4.1
(`wrap_as_internal`) it allocates an internal packet whose payload is the
given external packet; the route is unset and the caller must set
`prev_node_id` and `dest_node_id` next.  The unset fields are modelled as
zero / empty / false. -/
def wander_internal_from_external (p : Option wander_packet) :
    wander_internal_packet :=
  { payload := p
    payload_len := 0
    pr := { len := 0, step := 0, path := [] }
    prev_node_id := 0
    dest_node_id := 0
    is_response := false }

/-- The response-accumulation loop of `handle_send_external`
(comms_external.c lines 73-84): each successful read becomes one chunk;
the first (at `seq_nr = 0`) creates the response packet, later chunks are
appended, and `seq_nr` is incremented each iteration.  `chunks` is the
list of byte strings the successive `recv` calls returned (the loop ends
when the peer closes or `running` turns false). -/
def recv_response_loop (internal_payload : wander_packet) :
    List (List Byte) → Nat → Option wander_packet → Option wander_packet
  | [], _, ret_packet => ret_packet
  | chunk :: rest, seq_nr, ret_packet =>
    let ret_next :=
      if seq_nr = 0 then
        some (wander_create_response internal_payload chunk seq_nr)
      else
        ret_packet.map (fun r => wander_append_response r chunk seq_nr)
    recv_response_loop internal_payload rest (seq_nr + 1) ret_next

/-- What `handle_send_external` pushes to the external socket at line 62:
either the inner payload bytes (forward request) or the whole flattened
internal packet, cast to bytes via `(u8 *)internal_payload` (response
delivery).  The flattened case keeps the packet symbolically: the C
memory layout of the cast is not part of the embedding. -/
inductive ExtSendData where
  | innerPayload (bytes : List Byte) (len : Nat)
  | wholePacket (p : wander_packet) (len : Nat)
  deriving Repr, DecidableEq

/-- Observable outcome of one `handle_send_external` run: the boolean
return value, whether the external socket was created and whether it was
closed before returning, whether `packet_route_free(packet->pr)` ran,
the data handed to `send` on the external socket, and the internal
packet (with its next-hop node id) handed to `node->send_func`. -/
structure SendExternalResult where
  ok : Bool
  socketCreated : Bool
  socketClosed : Bool
  prFreed : Bool
  extSend : Option ExtSendData
  sendFuncCall : Option (wander_internal_packet × NodeId)
  deriving Repr, DecidableEq

/-- Embedding of `handle_send_external` (comms_external.c lines 35-109).
Socket outcomes are oracles: `sockOk` is whether `socket()` succeeds,
`connectOk` whether `connect()` succeeds, `sendOk` whether `send()`
succeeds.  `reads` gives, per iteration of the response loop, the bytes
the peer has ready; the loop runs one iteration per element (an empty
`reads` models the peer closing immediately or `running` being false
before the first read).  The C function dereferences `packet->payload`
unconditionally, so the `none` case is outside the modelled domain and
returns the failure record. -/
def handle_send_external (node_id : NodeId)
    (packet : wander_internal_packet)
    (sockOk connectOk sendOk : Bool) (reads : List (List Byte)) :
    SendExternalResult :=
  match packet.payload with
  | none =>
    { ok := false, socketCreated := false, socketClosed := false
      prFreed := false, extSend := none, sendFuncCall := none }
  | some internal_payload =>
    if !sockOk then
      -- line 42: socket creation failed, return false
      { ok := false, socketCreated := false, socketClosed := false
        prFreed := false, extSend := none, sendFuncCall := none }
    else if !connectOk then
      -- line 52: connect failed, return false
      { ok := false, socketCreated := true, socketClosed := false
        prFreed := false, extSend := none, sendFuncCall := none }
    else
      -- lines 59-60: choose the bytes by the is_response flag
      let sendData :=
        if packet.is_response then
          ExtSendData.wholePacket internal_payload packet.payload_len
        else
          ExtSendData.innerPayload internal_payload.payload
            internal_payload.payload_len
      if !sendOk then
        -- line 62: send failed, return false
        { ok := false, socketCreated := true, socketClosed := false
          prFreed := false, extSend := some sendData, sendFuncCall := none }
      else if !packet.is_response then
        -- lines 68-103: receive the response stream and send it back
        let reversed := reverse_route packet.pr.path packet.pr.len
        let chunks := reads.map recv_chunk
        let ret_packet := recv_response_loop internal_payload chunks 0 none
        let base := wander_internal_from_external ret_packet
        let internal_packet :=
          { base with
            pr := { len := packet.pr.len, step := 1, path := reversed }
            prev_node_id := node_id
            dest_node_id := packet.pr.path.getD 0 0
            is_response := true }
        { ok := true, socketCreated := true, socketClosed := true
          prFreed := true, extSend := some sendData
          sendFuncCall :=
            some (internal_packet,
                  internal_packet.pr.path.getD internal_packet.pr.step 0) }
      else
        -- response delivery: no receive loop, fall through to cleanup
        { ok := true, socketCreated := true, socketClosed := true
          prFreed := true, extSend := some sendData, sendFuncCall := none }

/-- A call made by `handle_external` into the forwarding engine, with the
internal packet as set up at the call site. -/
inductive EngineAction where
  | usePacketRoute (p : wander_internal_packet)
  | sendBogo (p : wander_internal_packet)
  | propagateFailure (p : wander_internal_packet)
  deriving Repr, DecidableEq

/-- The call kind of an engine action. -/
inductive ActionKind where
  | upr
  | bogo
  | prop
  deriving Repr, DecidableEq

/-- Project an engine action to its kind. -/
def EngineAction.kind : EngineAction → ActionKind
  | .usePacketRoute _ => .upr
  | .sendBogo _ => .bogo
  | .propagateFailure _ => .prop

/-- Observable outcome of one `handle_external` run: the ordered list of
forwarding-engine calls, and whether the accepted external connection
was shut down and closed and the thread-data argument freed (the
`cleanup:` label at lines 165-168). -/
structure HandleExternalResult where
  actions : List EngineAction
  connectionShutdown : Bool
  connectionClosed : Bool
  dataFreed : Bool
  deriving Repr, DecidableEq

/-- Embedding of `handle_external` (comms_external.c lines 111-169).
Oracles: `recvOk` is whether the initial `recv` of the external packet
returned a positive byte count; `tableEmpty` is `route_table_empty`;
`routePr` is the packet route produced by
`route_to_packet_route(get_random_route(...))`; `uprOk` and `bogoOk` are
the boolean results of `use_packet_route` and `send_bogo`. -/
def handle_external (node_id : NodeId) (recvOk : Bool)
    (packet : wander_packet) (tableEmpty : Bool)
    (routePr : packet_route_t) (uprOk bogoOk : Bool) :
    HandleExternalResult :=
  if !recvOk then
    -- line 118: recv failed, goto cleanup
    { actions := [], connectionShutdown := true, connectionClosed := true
      dataFreed := true }
  else
    -- lines 133-134
    let base := wander_internal_from_external (some packet)
    let base := { base with prev_node_id := node_id }
    if !tableEmpty then
      -- lines 137-149
      let internal_packet := { base with pr := routePr }
      if uprOk then
        -- line 145: early return, cleanup skipped
        { actions := [.usePacketRoute internal_packet]
          connectionShutdown := false, connectionClosed := false
          dataFreed := false }
      else if bogoOk then
        { actions := [.usePacketRoute internal_packet,
                      .sendBogo internal_packet]
          connectionShutdown := true, connectionClosed := true
          dataFreed := true }
      else
        { actions := [.usePacketRoute internal_packet,
                      .sendBogo internal_packet,
                      .propagateFailure internal_packet]
          connectionShutdown := true, connectionClosed := true
          dataFreed := true }
    else
      -- lines 150-163: degenerate single-hop route, then bogo
      let pr : packet_route_t := { len := 1, step := 0, path := [node_id] }
      let internal_packet := { base with pr := pr }
      if bogoOk then
        { actions := [.sendBogo internal_packet]
          connectionShutdown := true, connectionClosed := true
          dataFreed := true }
      else
        { actions := [.sendBogo internal_packet,
                      .propagateFailure internal_packet]
          connectionShutdown := true, connectionClosed := true
          dataFreed := true }

/-! ## Helper lemmas -/

/-- At its call site the length argument of `reverse_route` is the length
of the path, and the function is then exact list reversal. -/
theorem reverse_route_eq_reverse (P : List NodeId) :
    reverse_route P P.length = P.reverse := by
  simp [reverse_route]

/-- Running the response loop from a nonzero sequence number on an
already-created response appends the flattened remaining chunks and adds
their lengths. -/
theorem recv_response_loop_some (wp : wander_packet) :
    ∀ (cs : List (List Byte)) (seq : Nat) (r : wander_packet), seq ≠ 0 →
      recv_response_loop wp cs seq (some r) =
        some { r with
               payload := r.payload ++ cs.flatten
               payload_len := r.payload_len + (cs.map List.length).sum }
  | [], seq, r, _ => by simp [recv_response_loop]
  | c :: cs, seq, r, h => by
    simp only [recv_response_loop, if_neg h, Option.map_some']
    rw [recv_response_loop_some wp cs (seq + 1) _ (Nat.succ_ne_zero seq)]
    simp [wander_append_response, Nat.add_assoc]

/-! ## Claims -/

/-- Claim C4: for every path of length at least 1, `reverse_route`
returns a sequence of the same length whose first element is the last
element of the input and whose last element is the first element of the
input, reversing exactly, and applying `reverse_route` twice gives back
the original path. -/
theorem reverse_route_exact_reversal (P : List NodeId) (h : 1 ≤ P.length) :
    (reverse_route P P.length).length = P.length ∧
    (reverse_route P P.length).getD 0 0 = P.getD (P.length - 1) 0 ∧
    (reverse_route P P.length).getD (P.length - 1) 0 = P.getD 0 0 ∧
    reverse_route (reverse_route P P.length) P.length = P := by
  rw [reverse_route_eq_reverse]
  refine ⟨by simp, ?_, ?_, ?_⟩
  · rw [List.getD_eq_getElem _ _ (by simp; omega),
      List.getD_eq_getElem _ _ (by omega)]
    rw [List.getElem_reverse]
    congr 1
  · rw [List.getD_eq_getElem _ _ (by simp; omega),
      List.getD_eq_getElem _ _ (by omega)]
    rw [List.getElem_reverse]
    congr 1
    omega
  · have h2 := reverse_route_eq_reverse P.reverse
    rw [List.length_reverse, List.reverse_reverse] at h2
    exact h2

/-- Witness for C4 at the concrete path [1, 2, 5, 9]. -/
theorem reverse_route_exact_reversal_witness :
    (reverse_route [1, 2, 5, 9] 4).length = 4 ∧
    (reverse_route [1, 2, 5, 9] 4).getD 0 0 = 9 ∧
    (reverse_route [1, 2, 5, 9] 4).getD 3 0 = 1 ∧
    reverse_route (reverse_route [1, 2, 5, 9] 4) 4 = [1, 2, 5, 9] :=
  reverse_route_exact_reversal [1, 2, 5, 9] (by decide)

/-- Claim C5: for every nonempty sequence of chunks, the response loop
(first chunk creates the response at seq_nr 0, later chunks append with
seq_nr incrementing) yields a response whose payload is the
concatenation of the chunks and whose length field is the sum of the
chunk lengths. -/
theorem response_concatenation (wp : wander_packet)
    (chunks : List (List Byte)) (h : chunks ≠ []) :
    ∃ r : wander_packet,
      recv_response_loop wp chunks 0 none = some r ∧
      r.payload = chunks.flatten ∧
      r.payload_len = (chunks.map List.length).sum := by
  obtain ⟨c, cs, rfl⟩ := List.exists_cons_of_ne_nil h
  have step : recv_response_loop wp (c :: cs) 0 none =
      recv_response_loop wp cs 1 (some (wander_create_response wp c 0)) := by
    simp [recv_response_loop]
  rw [step, recv_response_loop_some wp cs 1 _ Nat.one_ne_zero]
  exact ⟨_, rfl, by simp [wander_create_response], by simp [wander_create_response]⟩

/-- Witness for C5 at two concrete chunks. -/
theorem response_concatenation_witness :
    ∃ r : wander_packet,
      recv_response_loop
        { dest_ipv4 := "", dest_port := 80, payload := [], payload_len := 0 }
        [[72, 73], [33]] 0 none = some r ∧
      r.payload = [[72, 73], [33]].flatten ∧
      r.payload_len = ([[72, 73], [33]].map List.length).sum :=
  response_concatenation
    { dest_ipv4 := "", dest_port := 80, payload := [], payload_len := 0 }
    [[72, 73], [33]] (by decide)

/-- Claim C1: at a node with a non-empty routing table, when
`use_packet_route` fails, `send_bogo` is called exactly once, and
`propagate_failure` is invoked exactly when `send_bogo` also fails; the
call sequence is use_packet_route, send_bogo, and possibly
propagate_failure, with no further local retry. -/
theorem bogo_retry_once (node_id : NodeId) (packet : wander_packet)
    (routePr : packet_route_t) (bogoOk : Bool) :
    (handle_external node_id true packet false routePr false bogoOk).actions.map
        EngineAction.kind =
      [ActionKind.upr, ActionKind.bogo] ++
        (if bogoOk then [] else [ActionKind.prop]) ∧
    (handle_external node_id true packet false routePr false
        bogoOk).actions.countP
        (fun a => decide (a.kind = ActionKind.bogo)) = 1 := by
  cases bogoOk <;>
    simp [handle_external, EngineAction.kind, List.countP_cons]

/-- Claim C2: at a node with an empty routing table, the packet gets the
degenerate single-hop route with len 1, step 0 and path [node_id],
`send_bogo` is attempted first without any `use_packet_route` call, and
`propagate_failure` follows exactly when `send_bogo` fails. -/
theorem empty_table_degenerate_route (node_id : NodeId)
    (packet : wander_packet) (routePr : packet_route_t)
    (uprOk bogoOk : Bool) :
    (handle_external node_id true packet true routePr uprOk
        bogoOk).actions.head? =
      some (.sendBogo
        { wander_internal_from_external (some packet) with
          prev_node_id := node_id
          pr := { len := 1, step := 0, path := [node_id] } }) ∧
    (handle_external node_id true packet true routePr uprOk
        bogoOk).actions.countP
        (fun a => decide (a.kind = ActionKind.upr)) = 0 ∧
    (handle_external node_id true packet true routePr uprOk
        bogoOk).actions.map EngineAction.kind =
      [ActionKind.bogo] ++ (if bogoOk then [] else [ActionKind.prop]) := by
  cases bogoOk <;>
    simp [handle_external, EngineAction.kind, List.countP_cons]

/-- Claim C9: `handle_external` skips the connection shutdown, the close
and the free of the thread data exactly on the path where the routing
table is non-empty and `use_packet_route` succeeds; every other path
(recv failure, forwarding failure, empty routing table) performs all
three cleanup steps. -/
theorem handle_external_cleanup_frame (node_id : NodeId) (recvOk : Bool)
    (packet : wander_packet) (tableEmpty : Bool)
    (routePr : packet_route_t) (uprOk bogoOk : Bool) :
    (handle_external node_id recvOk packet tableEmpty routePr uprOk
        bogoOk).connectionShutdown =
      !(recvOk && !tableEmpty && uprOk) ∧
    (handle_external node_id recvOk packet tableEmpty routePr uprOk
        bogoOk).connectionClosed =
      !(recvOk && !tableEmpty && uprOk) ∧
    (handle_external node_id recvOk packet tableEmpty routePr uprOk
        bogoOk).dataFreed =
      !(recvOk && !tableEmpty && uprOk) := by
  cases recvOk <;> cases tableEmpty <;> cases uprOk <;> cases bogoOk <;>
    simp [handle_external]

/-- Claim C8: every `recv` call of the external response loop requests
`recv_request_len` bytes, which is at most 65535, so no delivered chunk
exceeds 65535 bytes. -/
theorem recv_chunk_capped :
    recv_request_len ≤ 65535 ∧
    ∀ stream : List Byte, (recv_chunk stream).length ≤ 65535 := by
  refine ⟨by decide, fun stream => ?_⟩
  calc (recv_chunk stream).length ≤ recv_request_len := by
        simp [recv_chunk]
    _ ≤ 65535 := by decide

/-- Claim C6: once the external socket is created and connected, the
bytes offered to `send` are selected by the `is_response` flag: the
inner payload with its own length for a forward request, the whole
flattened packet with the outer `payload_len` for a response. -/
theorem ext_send_selected_by_flag (node_id : NodeId)
    (packet : wander_internal_packet) (wp : wander_packet) (sendOk : Bool)
    (reads : List (List Byte)) (hp : packet.payload = some wp) :
    (handle_send_external node_id packet true true sendOk reads).extSend =
      some (if packet.is_response then
              ExtSendData.wholePacket wp packet.payload_len
            else
              ExtSendData.innerPayload wp.payload wp.payload_len) := by
  cases hresp : packet.is_response <;> cases sendOk <;>
    simp [handle_send_external, hp, hresp]

/-- Witness for C6 at a concrete response packet. -/
theorem ext_send_selected_by_flag_witness :
    (handle_send_external 1
      { payload := some
          { dest_ipv4 := "", dest_port := 80, payload := [7], payload_len := 1 }
        payload_len := 42
        pr := { len := 1, step := 0, path := [1] }
        prev_node_id := 0, dest_node_id := 0, is_response := true }
      true true true []).extSend =
      some (ExtSendData.wholePacket
        { dest_ipv4 := "", dest_port := 80, payload := [7], payload_len := 1 }
        42) := by
  have h := ext_send_selected_by_flag 1
    { payload := some
        { dest_ipv4 := "", dest_port := 80, payload := [7], payload_len := 1 }
      payload_len := 42
      pr := { len := 1, step := 0, path := [1] }
      prev_node_id := 0, dest_node_id := 0, is_response := true }
    { dest_ipv4 := "", dest_port := 80, payload := [7], payload_len := 1 }
    true [] rfl
  simpa using h

/-- Claim C7 fails on the code: when `connect` fails (and likewise when
`send` fails), `handle_send_external` returns false with the external
socket created but not closed and the packet route not freed.  This
theorem evaluates the embedding on both failing paths. -/
theorem handle_send_external_leaks_on_early_return :
    (handle_send_external 1
        { payload := some
            { dest_ipv4 := "", dest_port := 80, payload := [7], payload_len := 1 }
          payload_len := 0
          pr := { len := 2, step := 0, path := [1, 2] }
          prev_node_id := 0, dest_node_id := 0, is_response := false }
        true false true []).ok = false ∧
    (handle_send_external 1
        { payload := some
            { dest_ipv4 := "", dest_port := 80, payload := [7], payload_len := 1 }
          payload_len := 0
          pr := { len := 2, step := 0, path := [1, 2] }
          prev_node_id := 0, dest_node_id := 0, is_response := false }
        true false true []).socketCreated = true ∧
    (handle_send_external 1
        { payload := some
            { dest_ipv4 := "", dest_port := 80, payload := [7], payload_len := 1 }
          payload_len := 0
          pr := { len := 2, step := 0, path := [1, 2] }
          prev_node_id := 0, dest_node_id := 0, is_response := false }
        true false true []).socketClosed = false ∧
    (handle_send_external 1
        { payload := some
            { dest_ipv4 := "", dest_port := 80, payload := [7], payload_len := 1 }
          payload_len := 0
          pr := { len := 2, step := 0, path := [1, 2] }
          prev_node_id := 0, dest_node_id := 0, is_response := false }
        true false true []).prFreed = false ∧
    (handle_send_external 1
        { payload := some
            { dest_ipv4 := "", dest_port := 80, payload := [7], payload_len := 1 }
          payload_len := 0
          pr := { len := 2, step := 0, path := [1, 2] }
          prev_node_id := 0, dest_node_id := 0, is_response := false }
        true true false []).socketClosed = false ∧
    (handle_send_external 1
        { payload := some
            { dest_ipv4 := "", dest_port := 80, payload := [7], payload_len := 1 }
          payload_len := 0
          pr := { len := 2, step := 0, path := [1, 2] }
          prev_node_id := 0, dest_node_id := 0, is_response := false }
        true true false []).prFreed = false := by
  refine ⟨rfl, rfl, rfl, rfl, rfl, rfl⟩

/-- The return internal packet built by the forward-request branch of
`handle_send_external` (comms_external.c lines 85-94), named so the
reduction lemma below can expose it. -/
def forward_return_packet (node_id : NodeId)
    (packet : wander_internal_packet) (wp : wander_packet)
    (reads : List (List Byte)) : wander_internal_packet :=
  { wander_internal_from_external
      (recv_response_loop wp (reads.map recv_chunk) 0 none) with
    pr := { len := packet.pr.len, step := 1
            path := reverse_route packet.pr.path packet.pr.len }
    prev_node_id := node_id
    dest_node_id := packet.pr.path.getD 0 0
    is_response := true }

/-- Reduction of `handle_send_external` on the fully successful forward
path: the inner payload is sent, the response stream is folded into the
return packet, and everything is cleaned up. -/
theorem handle_send_external_forward_eq (node_id : NodeId)
    (packet : wander_internal_packet) (wp : wander_packet)
    (reads : List (List Byte))
    (hp : packet.payload = some wp) (hresp : packet.is_response = false) :
    handle_send_external node_id packet true true true reads =
      { ok := true, socketCreated := true, socketClosed := true
        prFreed := true
        extSend := some (ExtSendData.innerPayload wp.payload wp.payload_len)
        sendFuncCall := some (forward_return_packet node_id packet wp reads,
          (forward_return_packet node_id packet wp
              reads).pr.path.getD
            (forward_return_packet node_id packet wp reads).pr.step 0) } := by
  simp [handle_send_external, forward_return_packet, hp, hresp]

/-- Claim C3: on a forward request that got a response, the return
internal packet carries the reversed forward path with step 1 and the
original length, prev_node_id is the local node, dest_node_id is the
original path's first element, is_response is true, and the packet is
handed to send_func addressed to the reversed path at index step. -/
theorem response_packet_construction (node_id : NodeId)
    (packet : wander_internal_packet) (wp : wander_packet)
    (reads : List (List Byte)) (p0 : NodeId) (rest : List NodeId)
    (hp : packet.payload = some wp) (hresp : packet.is_response = false)
    (hpath : packet.pr.path = p0 :: rest)
    (hlen : packet.pr.len = packet.pr.path.length)
    (hreads : reads ≠ []) :
    ∃ ip : wander_internal_packet,
      (handle_send_external node_id packet true true true
          reads).sendFuncCall =
        some (ip, ip.pr.path.getD ip.pr.step 0) ∧
      ip.pr.path = packet.pr.path.reverse ∧
      ip.pr.step = 1 ∧
      ip.pr.len = packet.pr.len ∧
      ip.prev_node_id = node_id ∧
      ip.dest_node_id = p0 ∧
      ip.is_response = true := by
  rw [handle_send_external_forward_eq node_id packet wp reads hp hresp]
  refine ⟨forward_return_packet node_id packet wp reads,
    rfl, ?_, rfl, rfl, rfl, ?_, rfl⟩
  · show reverse_route packet.pr.path packet.pr.len = packet.pr.path.reverse
    rw [hlen, reverse_route_eq_reverse]
  · show packet.pr.path.getD 0 0 = p0
    rw [hpath]
    rfl

/-- Witness for C3 at the forward path [1, 2, 5, 9] handled at node 9. -/
theorem response_packet_construction_witness :
    ∃ ip : wander_internal_packet,
      (handle_send_external 9
          { payload := some
              { dest_ipv4 := "", dest_port := 80, payload := [7], payload_len := 1 }
            payload_len := 0
            pr := { len := 4, step := 3, path := [1, 2, 5, 9] }
            prev_node_id := 5, dest_node_id := 9, is_response := false }
          true true true [[104, 105]]).sendFuncCall =
        some (ip, ip.pr.path.getD ip.pr.step 0) ∧
      ip.pr.path = [1, 2, 5, 9].reverse ∧
      ip.pr.step = 1 ∧
      ip.pr.len = 4 ∧
      ip.prev_node_id = 9 ∧
      ip.dest_node_id = 1 ∧
      ip.is_response = true :=
  response_packet_construction 9
    { payload := some
        { dest_ipv4 := "", dest_port := 80, payload := [7], payload_len := 1 }
      payload_len := 0
      pr := { len := 4, step := 3, path := [1, 2, 5, 9] }
      prev_node_id := 5, dest_node_id := 9, is_response := false }
    { dest_ipv4 := "", dest_port := 80, payload := [7], payload_len := 1 }
    [[104, 105]] 1 [2, 5, 9] rfl rfl rfl rfl (by decide)

/-- Claim C10: when the receive loop runs zero iterations on a forward
request, the response packet stays none (NULL), yet a return internal
packet is still built from it, given the reversed route with step 1 and
is_response true, and handed to send_func. -/
theorem null_response_forwarded (node_id : NodeId)
    (packet : wander_internal_packet) (wp : wander_packet)
    (hp : packet.payload = some wp) (hresp : packet.is_response = false) :
    ∃ (ip : wander_internal_packet) (nxt : NodeId),
      (handle_send_external node_id packet true true true
          []).sendFuncCall = some (ip, nxt) ∧
      ip.payload = none ∧
      ip.pr.path = reverse_route packet.pr.path packet.pr.len ∧
      ip.pr.step = 1 ∧
      ip.is_response = true := by
  rw [handle_send_external_forward_eq node_id packet wp [] hp hresp]
  exact ⟨_, _, rfl, rfl, rfl, rfl, rfl⟩

/-- Witness for C10: zero response chunks at a concrete packet. -/
theorem null_response_forwarded_witness :
    ∃ (ip : wander_internal_packet) (nxt : NodeId),
      (handle_send_external 3
          { payload := some
              { dest_ipv4 := "", dest_port := 80, payload := [9], payload_len := 1 }
            payload_len := 0
            pr := { len := 2, step := 1, path := [4, 3] }
            prev_node_id := 4, dest_node_id := 3, is_response := false }
          true true true []).sendFuncCall = some (ip, nxt) ∧
      ip.payload = none ∧
      ip.pr.path =
        reverse_route
          ({ len := 2, step := 1, path := [4, 3] } : packet_route_t).path
          ({ len := 2, step := 1, path := [4, 3] } : packet_route_t).len ∧
      ip.pr.step = 1 ∧
      ip.is_response = true :=
  null_response_forwarded 3
    { payload := some
        { dest_ipv4 := "", dest_port := 80, payload := [9], payload_len := 1 }
      payload_len := 0
      pr := { len := 2, step := 1, path := [4, 3] }
      prev_node_id := 4, dest_node_id := 3, is_response := false }
    { dest_ipv4 := "", dest_port := 80, payload := [9], payload_len := 1 }
    rfl rfl

end Wander
